import Mathlib

/-!
# PhoenixCore: geometry factory and render system

A shallow embedding of `source/AbstractGeometryFactory.h` and
`source/RenderSystem.cpp`.

Conventions of the embedding:

* objects are explicit records; a method is a function from the record before
  the call to the record after it (together with the returned value);
* calls into collaborators whose code is outside these two files (OpenGL, the
  window manager, the batch renderer, the frame timer, SOIL) are recorded, in
  program order, in a log of `Effect`s; what such a call returns is supplied by
  an `Env`;
* `float` values are only stored and passed on by the embedded code, so they are
  carried by `Scalar`; the frame-rate smoothing of `run` (floating point
  arithmetic) is represented by its two timer calls only;
* a `shared_ptr` / `intrusive_ptr` is an `Option` of an object identity, the
  empty pointer being `none`.
-/

namespace phoenix

/-! ## Basic carriers -/

/-- Carrier of `float` values, which the embedded code only stores and copies. -/
abbrev Scalar := Int

/-- Identity of a `Texture` held through a `boost::shared_ptr<Texture>` by a
geometry or a factory; the empty pointer is `none`. -/
abbrev TextureRef := Option Nat

/-- Identity of the callable held by a `boost::function< void() >`; the empty
function is `none`. -/
abbrev GroupFunction := Option Nat

/-! ## `AbstractGeometryFactory.h` -/

/-- `EFF_NONE = 0x0000`: no properties applied. -/
def EFF_NONE : Nat := 0x0000
/-- `EFF_DEPTH = 0x0001`: depth applied. -/
def EFF_DEPTH : Nat := 0x0001
/-- `EFF_GROUP = 0x0002`: group applied. -/
def EFF_GROUP : Nat := 0x0002
/-- `EFF_TEXTURE = 0x0004`: texture applied. -/
def EFF_TEXTURE : Nat := 0x0004
/-- `EFF_FUNCTIONS = 0x0008`: group functions applied. -/
def EFF_FUNCTIONS : Nat := 0x0008
/-- `EFF_UPDATE = 0x0010`: update called. -/
def EFF_UPDATE : Nat := 0x0010
/-- `EFF_ALL_NO_UPDATE = 0x000F`: all applied but update not called. -/
def EFF_ALL_NO_UPDATE : Nat := 0x000F
/-- `EFF_ALL = 0x001F`: all applied and update called. -/
def EFF_ALL : Nat := 0x001F

/-- One member-function call received by a `BatchGeometry`. -/
inductive GeometryCall where
  | setDepth (d : Scalar)
  | setGroup (g : Int)
  | setTexture (t : TextureRef)
  | setGroupBeginFunction (f : GroupFunction)
  | setGroupEndFunction (f : GroupFunction)
  | update
  deriving DecidableEq, Repr

/-- Modelled from the spec: the class `BatchGeometry` (BatchGeometry.h) is not
in the sources. Section 3 gives its data (depth, group, texture reference,
vertex data, begin/end callbacks); `calls` records, oldest first, the member
functions that have been called on the object. -/
structure BatchGeometry where
  depth : Scalar
  group : Int
  texture : TextureRef
  groupbegin : GroupFunction
  groupend : GroupFunction
  vertices : List Scalar
  calls : List GeometryCall
  deriving DecidableEq, Repr

namespace BatchGeometry

/-- Modelled from the spec: `setDepth` of BatchGeometry.h (section 4.5), a plain
property setter. -/
def setDepth (g : BatchGeometry) (d : Scalar) : BatchGeometry :=
  { g with depth := d, calls := g.calls ++ [GeometryCall.setDepth d] }

/-- Modelled from the spec: `setGroup` of BatchGeometry.h (section 4.5), a plain
property setter. -/
def setGroup (g : BatchGeometry) (n : Int) : BatchGeometry :=
  { g with group := n, calls := g.calls ++ [GeometryCall.setGroup n] }

/-- Modelled from the spec: `setTexture` of BatchGeometry.h (section 4.5), a
plain property setter. -/
def setTexture (g : BatchGeometry) (t : TextureRef) : BatchGeometry :=
  { g with texture := t, calls := g.calls ++ [GeometryCall.setTexture t] }

/-- Modelled from the spec: `setGroupBeginFunction` of BatchGeometry.h (section
4.5), a plain property setter. -/
def setGroupBeginFunction (g : BatchGeometry) (f : GroupFunction) : BatchGeometry :=
  { g with groupbegin := f, calls := g.calls ++ [GeometryCall.setGroupBeginFunction f] }

/-- Modelled from the spec: `setGroupEndFunction` of BatchGeometry.h (section
4.5), a plain property setter. -/
def setGroupEndFunction (g : BatchGeometry) (f : GroupFunction) : BatchGeometry :=
  { g with groupend := f, calls := g.calls ++ [GeometryCall.setGroupEndFunction f] }

/-- Modelled from the spec: the virtual `update()` of BatchGeometry.h, the
"recomputation hook" of section 4.5: it recomputes the vertex data from the
current state of the geometry (`recompute` is what the concrete geometry class
computes) and touches no property. -/
def update (recompute : BatchGeometry → List Scalar) (g : BatchGeometry) : BatchGeometry :=
  { g with vertices := recompute g, calls := g.calls ++ [GeometryCall.update] }

end BatchGeometry

/-- The private members of `AbstractGeometryFactory`. -/
structure AbstractGeometryFactory where
  factory_depth : Scalar
  factory_group : Int
  factory_texture : TextureRef
  factory_group_begin : GroupFunction
  factory_group_end : GroupFunction
  deriving DecidableEq, Repr

namespace AbstractGeometryFactory

/-- `AbstractGeometryFactory::apply( _g, _flags )`; `_flags` is an
`unsigned int`, its default argument is `EFF_ALL`. A C++ condition
`_flags & EFF_X` is true when the bitwise and is not zero. -/
def apply (recompute : BatchGeometry → List Scalar) (f : AbstractGeometryFactory)
    (_g : BatchGeometry) (_flags : Nat) : BatchGeometry :=
  let g1 := if _flags &&& EFF_DEPTH ≠ 0 then _g.setDepth f.factory_depth else _g
  let g2 := if _flags &&& EFF_GROUP ≠ 0 then g1.setGroup f.factory_group else g1
  let g3 := if _flags &&& EFF_TEXTURE ≠ 0 then g2.setTexture f.factory_texture else g2
  let g4 := if _flags &&& EFF_FUNCTIONS ≠ 0 then
      g3.setGroupBeginFunction f.factory_group_begin else g3
  let g5 := if _flags &&& EFF_FUNCTIONS ≠ 0 then
      g4.setGroupEndFunction f.factory_group_end else g4
  if _flags &&& EFF_UPDATE ≠ 0 then g5.update recompute else g5

end AbstractGeometryFactory

/-! ## `RenderSystem.cpp`: data -/

/-- `Vector2d` (Vector2d.h): two `float` coordinates. -/
structure Vector2d where
  x : Scalar
  y : Scalar
  deriving DecidableEq, Repr

/-- `Color` as used by `clearScreen( Color(0,0,0) )`: red, green, blue. -/
structure Color where
  r : Nat
  g : Nat
  b : Nat
  deriving DecidableEq, Repr

/-- The event types of `WindowEvent.h` that `onWindowEvent` names; the
enumeration itself is not in the sources, every other enumerator is
`WET_OTHER`. -/
inductive E_WINDOWEVENT_TYPE where
  | WET_CLOSE
  | WET_KEY
  | WET_RESIZE
  | WET_OTHER (tag : Nat)
  deriving DecidableEq, Repr

/-- `WindowEvent`: the members read by `onWindowEvent`. -/
structure WindowEvent where
  type : E_WINDOWEVENT_TYPE
  bool_data : Bool
  int_data : Int
  vector_data : Vector2d
  deriving DecidableEq, Repr

/-- The resource types: `findTexture` names `ERT_TEXTURE` only; the
enumeration itself is not in the sources, every other enumerator is
`ERT_OTHER`. -/
inductive E_RESOURCE_TYPE where
  | ERT_TEXTURE
  | ERT_OTHER (tag : Nat)
  deriving DecidableEq, Repr

/-- Modelled from the spec: `Resource` / `Texture` (Resource.h, Texture.h) are
not in the sources. Section 3: a resource has a type tag and a name, a texture
has a GPU id, a width and a height. `textureId`, `width` and `height` are what
`grab<Texture>()` makes readable on the object, whatever its type tag is. -/
structure Resource where
  type : E_RESOURCE_TYPE
  name : String
  textureId : Nat
  width : Int
  height : Int
  deriving DecidableEq, Repr

/-- `TexturePtr`: the empty pointer, or the position in the resource manager's
list of the object pointed to. -/
abbrev TexturePtr := Option Nat

/-- The OpenGL calls made by `RenderSystem.cpp`, each with the arguments that
vary. -/
inductive GLCall where
  | glMatrixMode_PROJECTION
  | glMatrixMode_MODELVIEW
  | glLoadIdentity
  /-- The call `glOrtho(0.0f, r, b, 0.0f, 1000.0f, -1000.0f)`. -/
  | glOrtho (r b : Scalar)
  | glDisable_DEPTH_TEST
  | glEnable_DEPTH_TEST
  | glDepthFunc_LEQUAL
  | glShadeModel_SMOOTH
  | glHint_PERSPECTIVE_CORRECTION_NICEST
  | glEnable_BLEND
  | glMaterialfv_FRONT_SPECULAR
  | glMaterialfv_FRONT_SHININESS
  | glColorMaterial
  | glEnable_COLOR_MATERIAL
  /-- The call `glBindTexture(GL_TEXTURE_2D, id)`. -/
  | glBindTexture (id : Nat)
  /-- `glTexParameteri(GL_TEXTURE_2D, GL_TEXTURE_MIN_FILTER, f)`, `f` being
  `GL_LINEAR` (`true`) or `GL_NEAREST` (`false`). -/
  | glTexParameteri_MIN_FILTER (linear : Bool)
  /-- `glTexParameteri(GL_TEXTURE_2D, GL_TEXTURE_MAG_FILTER, f)`, `f` being
  `GL_LINEAR` (`true`) or `GL_NEAREST` (`false`). -/
  | glTexParameteri_MAG_FILTER (linear : Bool)
  deriving DecidableEq, Repr

/-- A call made by the render system into a collaborator, or the construction of
an object. -/
inductive Effect where
  /-- `GLFWWindowManager::Instance()`. -/
  | wmInstance
  /-- `wm->open( _sz, _fs )`. -/
  | wmOpen (sz : Vector2d) (fs : Bool)
  /-- `wm->listen( ... onWindowEvent ... )`. -/
  | wmListen
  /-- `wm->update()`: flips the screen and polls events. -/
  | wmUpdate
  /-- `wm->setWindowSize( v )`. -/
  | wmSetWindowSize (v : Vector2d)
  /-- `renderer.getView().setSize()` without argument. -/
  | viewSetSizeDefault
  /-- `renderer.getView().setSize( v )`. -/
  | viewSetSize (v : Vector2d)
  | gl (c : GLCall)
  /-- `setBlendMode()` with its default arguments. -/
  | setBlendMode
  /-- `SOIL_load_OGL_texture( _fn, ... )`. -/
  | soilLoad (fn : String)
  /-- `SOIL_load_OGL_texture_from_memory( _d, _len, ... )`. -/
  | soilLoadFromMemory (d : List Nat) (len : Nat)
  /-- `new Texture( resources )`, the new object being at position `at_`. -/
  | newTexture (at_ : Nat)
  /-- `new BitmapFont( resources, renderer, t )`. -/
  | newBitmapFont (t : TexturePtr)
  /-- `renderer.draw()`. -/
  | rendererDraw
  /-- `resources.clean()`. -/
  | resourcesClean
  /-- `clearScreen( c )`; `none` is the call without argument. -/
  | clearScreen (c : Option Color)
  | fpstimerStart
  | fpstimerGetTime
  | fpstimerReset
  /-- `DebugConsole::Initialize( renderer, font )`. -/
  | debugConsoleInitialize
  deriving DecidableEq, Repr

/-- The members of a `RenderSystem` object that `RenderSystem.cpp` reads or
writes, and the log of the calls it has made. `viewSize` is
`renderer.getView().getSize()`, `resources` the list of the resource manager
(`resources.get(i)` is position `i`, `resources.count()` its length). -/
structure RenderSystem where
  quit : Bool
  resize : Bool
  viewSize : Vector2d
  resources : List Resource
  font : Option Nat
  log : List Effect
  deriving DecidableEq, Repr

/-- What the code outside `RenderSystem.cpp` returns or decides. -/
structure Env where
  /-- `PHK_ESC` (Keys.h). -/
  PHK_ESC : Int
  /-- Whether `DISABLE_DEPTHBUFFER` is defined. -/
  DISABLE_DEPTHBUFFER : Bool
  /-- A `RenderSystem` as its constructor leaves it. -/
  newRenderSystem : RenderSystem
  /-- Result of `wm->open( _sz, _fs )`. -/
  wmOpen : Vector2d → Bool → Bool
  /-- Size of the window opened by `wm->open( _sz, _fs )`, which
  `getView().setSize()` without argument takes over. -/
  wmWindowSize : Vector2d → Bool → Vector2d
  /-- `SOIL_load_OGL_texture`: the returned id and the values of `width` and
  `height` after the call. -/
  SOIL_load_OGL_texture : String → Nat × Int × Int
  /-- `SOIL_load_OGL_texture_from_memory`: the returned id. -/
  SOIL_load_OGL_texture_from_memory : List Nat → Nat → Nat
  /-- Name, id, width and height of a `Texture` as `Texture( resources )`
  leaves them. -/
  newTexture : String × Nat × Int × Int
  /-- `new BitmapFont( resources, renderer, t )`: the resource list afterwards
  and the new font. -/
  newBitmapFont : List Resource → TexturePtr → List Resource × Option Nat
  /-- `resources.clean()`: the resource list afterwards. -/
  clean : List Resource → List Resource
  /-- The bytes `builtin_font_imagedata` (PrecompiledFont.h). -/
  builtin_font_imagedata : List Nat
  builtin_font_imagedata_size : Nat
  builtin_font_imagedata_width : Nat
  builtin_font_imagedata_height : Nat

/-- The exceptions leaving `RenderSystem.cpp`: `BadInstance`, and the abort of
a `throw;` executed while no exception is being handled. -/
inductive Exception where
  | BadInstance
  | terminate
  deriving DecidableEq, Repr

/-- The process-wide state of `RenderSystem.cpp`: the static
`RenderSystem::instance` (`none` is the empty pointer) and the number of
`RenderSystem` objects constructed so far. -/
structure World where
  instance_ : Option RenderSystem
  constructed : Nat
  deriving DecidableEq, Repr

/-! ## `RenderSystem.cpp`: operations -/

/-- Apply `f` to the element at position `i` (a member-function call on the
object `resources.get(i)`). -/
def modifyAt (f : Resource → Resource) : Nat → List Resource → List Resource
  | _, [] => []
  | 0, r :: rs => f r :: rs
  | i + 1, r :: rs => r :: modifyAt f i rs

namespace RenderSystem

/-- Record one call into a collaborator. -/
def emit (s : RenderSystem) (e : Effect) : RenderSystem :=
  { s with log := s.log ++ [e] }

/-- Modelled from the spec: `new Texture( resources )` (Texture.h is not in the
sources): section 4.1, a resource constructed against the resource manager is
added to its list; the result is the new object's position. -/
def newTexture (env : Env) (s : RenderSystem) : Nat × RenderSystem :=
  let t : Resource :=
    { type := E_RESOURCE_TYPE.ERT_TEXTURE, name := env.newTexture.1,
      textureId := env.newTexture.2.1, width := env.newTexture.2.2.1,
      height := env.newTexture.2.2.2 }
  (s.resources.length,
    { s with resources := s.resources ++ [t],
             log := s.log ++ [Effect.newTexture s.resources.length] })

/-- Modelled from the spec: `Texture::setTextureId` (Texture.h), a plain
setter. -/
def setTextureId (p : Nat) (v : Nat) (s : RenderSystem) : RenderSystem :=
  { s with resources := modifyAt (fun r => { r with textureId := v }) p s.resources }

/-- Modelled from the spec: `Texture::setWidth` (Texture.h), a plain setter. -/
def setWidth (p : Nat) (v : Int) (s : RenderSystem) : RenderSystem :=
  { s with resources := modifyAt (fun r => { r with width := v }) p s.resources }

/-- Modelled from the spec: `Texture::setHeight` (Texture.h), a plain setter. -/
def setHeight (p : Nat) (v : Int) (s : RenderSystem) : RenderSystem :=
  { s with resources := modifyAt (fun r => { r with height := v }) p s.resources }

/-- Modelled from the spec: `Resource::setName` (Resource.h), a plain setter. -/
def setName (p : Nat) (v : String) (s : RenderSystem) : RenderSystem :=
  { s with resources := modifyAt (fun r => { r with name := v }) p s.resources }

/-- `RenderSystem::onWindowEvent( e )`. The case `WET_RESIZE` has no `break`
and falls into `default: break;`. -/
def onWindowEvent (env : Env) (e : WindowEvent) (s : RenderSystem) : RenderSystem :=
  match e.type with
  | E_WINDOWEVENT_TYPE.WET_CLOSE => { s with quit := true }
  | E_WINDOWEVENT_TYPE.WET_KEY =>
    if e.bool_data = true ∧ e.int_data = env.PHK_ESC then { s with quit := true } else s
  | E_WINDOWEVENT_TYPE.WET_RESIZE =>
    if ¬ (s.resize = true) then
      s.emit (Effect.wmSetWindowSize s.viewSize)
    else
      let s1 := { s with viewSize := e.vector_data }.emit (Effect.viewSetSize e.vector_data)
      let s2 := s1.emit (Effect.gl GLCall.glMatrixMode_PROJECTION)
      let s3 := s2.emit (Effect.gl GLCall.glLoadIdentity)
      s3.emit (Effect.gl (GLCall.glOrtho e.vector_data.x e.vector_data.y))
  | E_WINDOWEVENT_TYPE.WET_OTHER _ => s

/-- The window manager's `update()`: the call itself, then the events it
emits during the call, each delivered to the listener `onWindowEvent` that
`Initialize` connected, in the order of emission. -/
def wmUpdate (env : Env) (events : List WindowEvent) (s : RenderSystem) : RenderSystem :=
  events.foldl (fun st e => onWindowEvent env e st) (s.emit Effect.wmUpdate)

/-- `RenderSystem::run()`; `events` are the events the window manager emits
during this call's `wm->update()`. -/
def run (env : Env) (events : List WindowEvent) (s : RenderSystem) : Bool × RenderSystem :=
  -- Call our own draw function
  let s1 := s.emit Effect.rendererDraw
  -- flip the screen (this also polls events)
  let s2 := wmUpdate env events s1
  -- Clean resources
  let s3 := { s2 with resources := env.clean s2.resources }.emit Effect.resourcesClean
  -- clear screen
  let s4 := s3.emit (Effect.clearScreen none)
  -- store the new framerate
  let s5 := s4.emit Effect.fpstimerGetTime
  -- Start our fps timer
  let s6 := s5.emit Effect.fpstimerReset
  (!s6.quit, s6)

/-- The two `glTexParameteri` calls that select the filter. -/
def setFilter (linear : Bool) (s : RenderSystem) : RenderSystem :=
  (s.emit (Effect.gl (GLCall.glTexParameteri_MIN_FILTER linear))).emit
    (Effect.gl (GLCall.glTexParameteri_MAG_FILTER linear))

/-- `RenderSystem::loadTexture( const std::string& _fn, bool _l )`. -/
def loadTexture (env : Env) (_fn : String) (_l : Bool) (s : RenderSystem) :
    TexturePtr × RenderSystem :=
  -- This is the class that will hold our texture
  let (ctext, s1) := newTexture env s
  let (newtextid, width, height) := env.SOIL_load_OGL_texture _fn
  let s2 := s1.emit (Effect.soilLoad _fn)
  if newtextid ≠ 0 then
    let s3 := s2.emit (Effect.gl (GLCall.glBindTexture newtextid))
    let s4 := if _l = true then setFilter true s3 else setFilter false s3
    let s5 := setTextureId ctext newtextid s4
    let s6 := setWidth ctext width s5
    let s7 := setHeight ctext height s6
    let s8 := setName ctext _fn s7
    (some ctext, s8)
  else
    let (ctext', s3) := newTexture env s2
    let s4 := setTextureId ctext' 0 s3
    let s5 := setWidth ctext' 0 s4
    let s6 := setHeight ctext' 0 s5
    let s7 := setName ctext' "FAILED TO LOAD" s6
    (some ctext', s7)

/-- `RenderSystem::loadTexture( const unsigned char* const _d, const unsigned
int _len, const unsigned int _w, const unsigned int _h, bool _lin )`. -/
def loadTextureFromMemory (env : Env) (_d : List Nat) (_len _w _h : Nat) (_lin : Bool)
    (s : RenderSystem) : TexturePtr × RenderSystem :=
  -- This is the class that will hold our texture
  let (ctext, s1) := newTexture env s
  let newtextid := env.SOIL_load_OGL_texture_from_memory _d _len
  let s2 := s1.emit (Effect.soilLoadFromMemory _d _len)
  if newtextid ≠ 0 then
    let s3 := s2.emit (Effect.gl (GLCall.glBindTexture newtextid))
    let s4 := if _lin = true then setFilter true s3 else setFilter false s3
    let s5 := setTextureId ctext newtextid s4
    let s6 := setWidth ctext _w s5
    let s7 := setHeight ctext _h s6
    let s8 := setName ctext "Loaded From Memory" s7
    (some ctext, s8)
  else
    let (ctext', s3) := newTexture env s2
    let s4 := setTextureId ctext' 0 s3
    let s5 := setWidth ctext' 0 s4
    let s6 := setHeight ctext' 0 s5
    let s7 := setName ctext' "FAILED TO LOAD" s6
    (some ctext', s7)

/-- Modelled from the spec: `ResourceManager::find( name )` (ResourceManager.h
is not in the sources): section 4.1, `find(name) -> optional handle`, the lookup
of a resource by its name; `i` is the position of the head of the list. -/
def findFrom (name : String) : List Resource → Nat → Option Nat
  | [], _ => none
  | r :: rs, i => if r.name = name then some i else findFrom name rs (i + 1)

/-- Modelled from the spec: `resources.find( _i )`. -/
def find (name : String) (s : RenderSystem) : Option Nat :=
  findFrom name s.resources 0

/-- `RenderSystem::findTexture( const std::string& _i )`; `grab< Texture >()`
converts the pointer and keeps the object it points to. -/
def findTexture (_i : String) (s : RenderSystem) : TexturePtr :=
  match find _i s with
  | some findtexture => some findtexture
  | none => none

/-- The `for` loop of `RenderSystem::findTexture( const GLuint& _n )` from the
value `i` of its counter on; `todo` is `resources.count() - i`, the number of
iterations before `i < resources.count()` fails. -/
def findTextureLoop (rs : List Resource) (_n : Nat) : Nat → Nat → TexturePtr
  | 0, _ => none
  | todo + 1, i =>
    match rs[i]? with
    | none => none
    | some r =>
      if r.type = E_RESOURCE_TYPE.ERT_TEXTURE then
        if r.textureId = _n then some i
        else findTextureLoop rs _n todo (i + 1)
      else findTextureLoop rs _n todo (i + 1)

/-- `RenderSystem::findTexture( const GLuint& _n )`. -/
def findTextureGLuint (_n : Nat) (s : RenderSystem) : TexturePtr :=
  findTextureLoop s.resources _n s.resources.length 0

/-- `RenderSystem::Initialize( _sz, _fs )`: the process state afterwards and the
returned pointer, or the exception thrown. -/
def Initialize (env : Env) (_sz : Vector2d) (_fs : Bool) (w : World) :
    World × Except Exception RenderSystem :=
  -- Create the instance
  if w.instance_.isSome then (w, Except.error Exception.BadInstance)
  else
    let i0 := env.newRenderSystem
    -- GLFW Window Manager
    let i1 := i0.emit Effect.wmInstance
    -- Create our window
    let i2 := i1.emit (Effect.wmOpen _sz _fs)
    if ¬ (env.wmOpen _sz _fs = true) then
      ({ instance_ := some i2, constructed := w.constructed + 1 },
        Except.error Exception.terminate)
    else
      -- Listen to events.
      let i3 := i2.emit Effect.wmListen
      -- viewport the same as the window size.
      let i4 := { i3 with viewSize := env.wmWindowSize _sz _fs }.emit Effect.viewSetSizeDefault
      -- Orthogonal projection, identity for the modelview matrix.
      let i5 := [GLCall.glMatrixMode_PROJECTION, GLCall.glLoadIdentity,
        GLCall.glOrtho _sz.x _sz.y, GLCall.glMatrixMode_MODELVIEW,
        GLCall.glLoadIdentity].foldl (fun st c => st.emit (Effect.gl c)) i4
      -- Set up depth buffer
      let i6 := if env.DISABLE_DEPTHBUFFER = true then
          i5.emit (Effect.gl GLCall.glDisable_DEPTH_TEST)
        else
          (i5.emit (Effect.gl GLCall.glEnable_DEPTH_TEST)).emit
            (Effect.gl GLCall.glDepthFunc_LEQUAL)
      -- Smooth shading, nicest hinting, blending.
      let i7 := [GLCall.glShadeModel_SMOOTH, GLCall.glHint_PERSPECTIVE_CORRECTION_NICEST,
        GLCall.glEnable_BLEND].foldl (fun st c => st.emit (Effect.gl c)) i6
      let i8 := i7.emit Effect.setBlendMode
      -- Default material, material mode.
      let i9 := [GLCall.glMaterialfv_FRONT_SPECULAR, GLCall.glMaterialfv_FRONT_SHININESS,
        GLCall.glColorMaterial, GLCall.glEnable_COLOR_MATERIAL].foldl
          (fun st c => st.emit (Effect.gl c)) i8
      -- load our default font
      let (t, i10) := loadTextureFromMemory env env.builtin_font_imagedata
        env.builtin_font_imagedata_size env.builtin_font_imagedata_width
        env.builtin_font_imagedata_height true i9
      let (rs, fnt) := env.newBitmapFont i10.resources t
      let i11 := { i10 with resources := rs, font := fnt }.emit (Effect.newBitmapFont t)
      -- Clear the screen to black
      let i12 := i11.emit (Effect.clearScreen (some { r := 0, g := 0, b := 0 }))
      -- start the timer
      let i13 := i12.emit Effect.fpstimerStart
      -- Setup the debug console
      let i14 := i13.emit Effect.debugConsoleInitialize
      -- finally, return the instance.
      ({ instance_ := some i14, constructed := w.constructed + 1 }, Except.ok i14)

end RenderSystem

/-! ## Observations on the log -/

/-- The steps of a frame: the batch draw, the window update (buffer swap and
event poll), the resource clean-up and the screen clear. -/
def Effect.isFrameStep : Effect → Bool
  | Effect.rendererDraw => true
  | Effect.wmUpdate => true
  | Effect.resourcesClean => true
  | Effect.clearScreen _ => true
  | _ => false

/-- The calls made by one invocation of `run`: what it appended to the log. -/
def RenderSystem.runLog (env : Env) (events : List WindowEvent) (s : RenderSystem) :
    List Effect :=
  (RenderSystem.run env events s).2.log.drop s.log.length

/-- A `Texture` as the constructor `Texture( resources )` leaves it, before any
setter is called on it. -/
def Env.constructedTexture (env : Env) : Resource :=
  { type := E_RESOURCE_TYPE.ERT_TEXTURE, name := env.newTexture.1,
    textureId := env.newTexture.2.1, width := env.newTexture.2.2.1,
    height := env.newTexture.2.2.2 }

/-! ## Concrete inputs -/

/-- A render system with no resources, not quitting, resizing enabled. -/
def RenderSystem.sample : RenderSystem :=
  { quit := false, resize := true, viewSize := { x := 640, y := 480 }, resources := [],
    font := none, log := [] }

/-- An environment in which the window opens, the file `deffont.png` decodes to
a 256 x 256 image with id 1 and every other file fails, and a non-empty byte
buffer decodes with id 7 while the empty one fails. -/
def Env.sample : Env :=
  { PHK_ESC := 257
    DISABLE_DEPTHBUFFER := false
    newRenderSystem := RenderSystem.sample
    wmOpen := fun _ _ => true
    wmWindowSize := fun sz _ => sz
    SOIL_load_OGL_texture := fun fn => if fn = "deffont.png" then (1, 256, 256) else (0, 0, 0)
    SOIL_load_OGL_texture_from_memory := fun d _ => if d = [] then 0 else 7
    newTexture := ("", 0, 0, 0)
    newBitmapFont := fun rs _ =>
      (rs ++ [{ type := E_RESOURCE_TYPE.ERT_OTHER 0, name := "", textureId := 0, width := 0,
                height := 0 }], some rs.length)
    clean := fun rs => rs
    builtin_font_imagedata := [137, 80, 78, 71]
    builtin_font_imagedata_size := 4
    builtin_font_imagedata_width := 256
    builtin_font_imagedata_height := 256 }

/-- A render system like `RenderSystem.sample`, with resizing disabled. -/
def RenderSystem.sampleFixed : RenderSystem :=
  { RenderSystem.sample with resize := false }

end phoenix

namespace phoenix

/-! ## Theorems: `AbstractGeometryFactory::apply` -/

/-- The C++ test `flags & 2^k` succeeds exactly when bit `k` of `flags` is set. -/
theorem land_two_pow_ne_zero (flags k : Nat) :
    flags &&& 2 ^ k ≠ 0 ↔ flags.testBit k = true := by
  rw [Nat.and_two_pow]
  cases h : flags.testBit k <;> simp

/-- Each flag test of `apply` reads one bit of the flags word. -/
theorem flag_tests (flags : Nat) :
    (flags &&& EFF_DEPTH ≠ 0 ↔ flags.testBit 0 = true) ∧
    (flags &&& EFF_GROUP ≠ 0 ↔ flags.testBit 1 = true) ∧
    (flags &&& EFF_TEXTURE ≠ 0 ↔ flags.testBit 2 = true) ∧
    (flags &&& EFF_FUNCTIONS ≠ 0 ↔ flags.testBit 3 = true) ∧
    (flags &&& EFF_UPDATE ≠ 0 ↔ flags.testBit 4 = true) :=
  ⟨land_two_pow_ne_zero flags 0, land_two_pow_ne_zero flags 1, land_two_pow_ne_zero flags 2,
    land_two_pow_ne_zero flags 3, land_two_pow_ne_zero flags 4⟩

/-- `apply` with each flag test written as a bit test. -/
theorem apply_eq (recompute : BatchGeometry → List Scalar) (f : AbstractGeometryFactory)
    (g : BatchGeometry) (flags : Nat) :
    f.apply recompute g flags =
      (let g1 := if flags.testBit 0 = true then g.setDepth f.factory_depth else g
       let g2 := if flags.testBit 1 = true then g1.setGroup f.factory_group else g1
       let g3 := if flags.testBit 2 = true then g2.setTexture f.factory_texture else g2
       let g4 := if flags.testBit 3 = true then
         g3.setGroupBeginFunction f.factory_group_begin else g3
       let g5 := if flags.testBit 3 = true then
         g4.setGroupEndFunction f.factory_group_end else g4
       if flags.testBit 4 = true then g5.update recompute else g5) := by
  obtain ⟨h0, h1, h2, h3, h4⟩ := flag_tests flags
  simp only [AbstractGeometryFactory.apply, h0, h1, h2, h3, h4]


/-- C1: `apply` is selective per flag bit. The five flags are the bits 0 to 4.
After `apply(g, flags)` the depth is the factory's depth if bit 0 (`EFF_DEPTH`)
is set and unchanged otherwise; likewise the group for bit 1 (`EFF_GROUP`), the
texture for bit 2 (`EFF_TEXTURE`), and both group functions for bit 3
(`EFF_FUNCTIONS`). The calls received by the geometry are the selected setters,
in source order, followed by `update()` exactly when bit 4 (`EFF_UPDATE`) is
set: `update()` runs once or not at all, and after every assignment (it
recomputes from the geometry as `apply` without the update flag leaves it).
With `EFF_ALL` all five properties are copied and `update()` is called; with
`EFF_NONE` the geometry is unchanged. -/
theorem AbstractGeometryFactory.apply_selective (recompute : BatchGeometry → List Scalar)
    (f : AbstractGeometryFactory) (g : BatchGeometry) (flags : Nat) :
    (EFF_DEPTH = 2 ^ 0 ∧ EFF_GROUP = 2 ^ 1 ∧ EFF_TEXTURE = 2 ^ 2 ∧ EFF_FUNCTIONS = 2 ^ 3 ∧
      EFF_UPDATE = 2 ^ 4) ∧
    (f.apply recompute g flags).depth
      = (if flags.testBit 0 = true then f.factory_depth else g.depth) ∧
    (f.apply recompute g flags).group
      = (if flags.testBit 1 = true then f.factory_group else g.group) ∧
    (f.apply recompute g flags).texture
      = (if flags.testBit 2 = true then f.factory_texture else g.texture) ∧
    (f.apply recompute g flags).groupbegin
      = (if flags.testBit 3 = true then f.factory_group_begin else g.groupbegin) ∧
    (f.apply recompute g flags).groupend
      = (if flags.testBit 3 = true then f.factory_group_end else g.groupend) ∧
    (f.apply recompute g flags).calls = g.calls ++
      ((if flags.testBit 0 = true then [GeometryCall.setDepth f.factory_depth] else []) ++
       (if flags.testBit 1 = true then [GeometryCall.setGroup f.factory_group] else []) ++
       (if flags.testBit 2 = true then [GeometryCall.setTexture f.factory_texture] else []) ++
       (if flags.testBit 3 = true then
          [GeometryCall.setGroupBeginFunction f.factory_group_begin] else []) ++
       (if flags.testBit 3 = true then
          [GeometryCall.setGroupEndFunction f.factory_group_end] else [])) ++
      (if flags.testBit 4 = true then [GeometryCall.update] else []) ∧
    ((f.apply recompute g flags).calls.count GeometryCall.update
      = g.calls.count GeometryCall.update + (if flags.testBit 4 = true then 1 else 0)) ∧
    (f.apply recompute g flags).vertices
      = (if flags.testBit 4 = true then
          recompute (f.apply recompute g (flags &&& EFF_ALL_NO_UPDATE)) else g.vertices) ∧
    (f.apply recompute g EFF_ALL =
      { depth := f.factory_depth, group := f.factory_group, texture := f.factory_texture,
        groupbegin := f.factory_group_begin, groupend := f.factory_group_end,
        vertices := recompute (f.apply recompute g EFF_ALL_NO_UPDATE),
        calls := g.calls ++ [GeometryCall.setDepth f.factory_depth,
          GeometryCall.setGroup f.factory_group, GeometryCall.setTexture f.factory_texture,
          GeometryCall.setGroupBeginFunction f.factory_group_begin,
          GeometryCall.setGroupEndFunction f.factory_group_end, GeometryCall.update] }) ∧
    f.apply recompute g EFF_NONE = g := by
  have hmask : ∀ k, (flags &&& EFF_ALL_NO_UPDATE).testBit k
      = (flags.testBit k && Nat.testBit 15 k) := fun k => by
    simp [EFF_ALL_NO_UPDATE, Nat.testBit_and]
  have e0 : Nat.testBit 15 0 = true := by decide
  have e1 : Nat.testBit 15 1 = true := by decide
  have e2 : Nat.testBit 15 2 = true := by decide
  have e3 : Nat.testBit 15 3 = true := by decide
  have e4 : Nat.testBit 15 4 = false := by decide
  have a0 : Nat.testBit EFF_ALL 0 = true := by decide
  have a1 : Nat.testBit EFF_ALL 1 = true := by decide
  have a2 : Nat.testBit EFF_ALL 2 = true := by decide
  have a3 : Nat.testBit EFF_ALL 3 = true := by decide
  have a4 : Nat.testBit EFF_ALL 4 = true := by decide
  have n0 : Nat.testBit EFF_ALL_NO_UPDATE 0 = true := by decide
  have n1 : Nat.testBit EFF_ALL_NO_UPDATE 1 = true := by decide
  have n2 : Nat.testBit EFF_ALL_NO_UPDATE 2 = true := by decide
  have n3 : Nat.testBit EFF_ALL_NO_UPDATE 3 = true := by decide
  have n4 : Nat.testBit EFF_ALL_NO_UPDATE 4 = false := by decide
  have z : ∀ k, Nat.testBit EFF_NONE k = false := fun k => by simp [EFF_NONE]
  refine ⟨by decide, ?_, ?_, ?_, ?_, ?_, ?_, ?_, ?_, ?_, ?_⟩
  case refine_9 =>
    simp only [apply_eq, a0, a1, a2, a3, a4, n0, n1, n2, n3, n4]
    simp [BatchGeometry.setDepth, BatchGeometry.setGroup, BatchGeometry.setTexture,
      BatchGeometry.setGroupBeginFunction, BatchGeometry.setGroupEndFunction,
      BatchGeometry.update]
  case refine_10 =>
    simp only [apply_eq, z]
    simp
  all_goals
    rw [apply_eq]
    cases h0 : flags.testBit 0 <;> cases h1 : flags.testBit 1 <;>
    cases h2 : flags.testBit 2 <;> cases h3 : flags.testBit 3 <;>
    cases h4 : flags.testBit 4 <;>
    simp [apply_eq, hmask, e0, e1, e2, e3, e4, h0, h1, h2, h3, h4, BatchGeometry.setDepth,
      BatchGeometry.setGroup, BatchGeometry.setTexture,
      BatchGeometry.setGroupBeginFunction, BatchGeometry.setGroupEndFunction,
      BatchGeometry.update]


/-! ## Theorems: `RenderSystem::loadTexture` -/

/-- A member-function call on the object constructed last changes that object
only. -/
theorem modifyAt_length_append (f : Resource → Resource) (rs : List Resource) (r : Resource) :
    modifyAt f rs.length (rs ++ [r]) = rs ++ [f r] := by
  induction rs with
  | nil => rfl
  | cons a rs ih => simp [modifyAt, ih]

/-- The element after the next one of a list extended by two elements. -/
theorem getElem?_length_succ_append (rs : List Resource) (a b : Resource) :
    (rs ++ [a, b])[rs.length + 1]? = some b := by
  rw [List.getElem?_append_right (by omega)]
  simp

/-- The failure branch shared by both overloads: the placeholder is constructed
after the resources already present and then given its four fields. -/
theorem placeholder_resources (env : Env) (s : RenderSystem) :
    (RenderSystem.setName (RenderSystem.newTexture env s).1 "FAILED TO LOAD"
      (RenderSystem.setHeight (RenderSystem.newTexture env s).1 0
        (RenderSystem.setWidth (RenderSystem.newTexture env s).1 0
          (RenderSystem.setTextureId (RenderSystem.newTexture env s).1 0
            (RenderSystem.newTexture env s).2)))).resources
      = s.resources ++ [{ type := E_RESOURCE_TYPE.ERT_TEXTURE, name := "FAILED TO LOAD",
                          textureId := 0, width := 0, height := 0 }] := by
  simp [RenderSystem.setName, RenderSystem.setHeight, RenderSystem.setWidth,
    RenderSystem.setTextureId, RenderSystem.newTexture, modifyAt_length_append]

/-- C2: a failed texture load yields a placeholder. For both overloads and
either filter setting, when the image loader returns id 0 the call returns a
non-empty pointer (to the object constructed second), and the object it points
to has texture id 0, width 0, height 0 and the name "FAILED TO LOAD". -/
theorem RenderSystem.loadTexture_failed (env : Env) (s : RenderSystem) (_fn : String)
    (_d : List Nat) (_len _w _h : Nat) (filter : Bool) :
    ((env.SOIL_load_OGL_texture _fn).1 = 0 →
      (RenderSystem.loadTexture env _fn filter s).1 = some (s.resources.length + 1) ∧
      (RenderSystem.loadTexture env _fn filter s).2.resources[s.resources.length + 1]?
        = some { type := E_RESOURCE_TYPE.ERT_TEXTURE, name := "FAILED TO LOAD",
                 textureId := 0, width := 0, height := 0 }) ∧
    (env.SOIL_load_OGL_texture_from_memory _d _len = 0 →
      (RenderSystem.loadTextureFromMemory env _d _len _w _h filter s).1
        = some (s.resources.length + 1) ∧
      (RenderSystem.loadTextureFromMemory env _d _len _w _h filter s).2.resources[
          s.resources.length + 1]?
        = some { type := E_RESOURCE_TYPE.ERT_TEXTURE, name := "FAILED TO LOAD",
                 textureId := 0, width := 0, height := 0 }) := by
  constructor
  · intro h
    have hp := placeholder_resources env
      ((RenderSystem.newTexture env s).2.emit (Effect.soilLoad _fn))
    simp only [RenderSystem.loadTexture, h, ne_eq, not_true_eq_false, if_false]
    constructor
    · simp [RenderSystem.newTexture, RenderSystem.emit]
    · rw [hp]
      simp only [RenderSystem.newTexture, RenderSystem.emit, List.append_assoc,
        List.cons_append, List.nil_append]
      exact getElem?_length_succ_append _ _ _
  · intro h
    have hp := placeholder_resources env
      ((RenderSystem.newTexture env s).2.emit (Effect.soilLoadFromMemory _d _len))
    simp only [RenderSystem.loadTextureFromMemory, h, ne_eq, not_true_eq_false, if_false]
    constructor
    · simp [RenderSystem.newTexture, RenderSystem.emit]
    · rw [hp]
      simp only [RenderSystem.newTexture, RenderSystem.emit, List.append_assoc,
        List.cons_append, List.nil_append]
      exact getElem?_length_succ_append _ _ _


/-- Witness for C2: the file `missing.png` and the empty byte buffer both fail
to decode in `Env.sample`, and the placeholder comes back. -/
theorem RenderSystem.loadTexture_failed_witness :
    ((Env.sample.SOIL_load_OGL_texture "missing.png").1 = 0 ∧
      Env.sample.SOIL_load_OGL_texture_from_memory [] 0 = 0) ∧
    ((RenderSystem.loadTexture Env.sample "missing.png" true RenderSystem.sample).1 = some 1 ∧
      (RenderSystem.loadTexture Env.sample "missing.png" true RenderSystem.sample).2.resources[1]?
        = some { type := E_RESOURCE_TYPE.ERT_TEXTURE, name := "FAILED TO LOAD",
                 textureId := 0, width := 0, height := 0 }) ∧
    ((RenderSystem.loadTextureFromMemory Env.sample [] 0 4 4 true RenderSystem.sample).1
        = some 1 ∧
      (RenderSystem.loadTextureFromMemory Env.sample [] 0 4 4 true
          RenderSystem.sample).2.resources[1]?
        = some { type := E_RESOURCE_TYPE.ERT_TEXTURE, name := "FAILED TO LOAD",
                 textureId := 0, width := 0, height := 0 }) :=
  ⟨⟨by decide, by decide⟩,
    (RenderSystem.loadTexture_failed Env.sample RenderSystem.sample "missing.png" [] 0 4 4
      true).1 (by decide),
    (RenderSystem.loadTexture_failed Env.sample RenderSystem.sample "missing.png" [] 0 4 4
      true).2 (by decide)⟩

/-- The success branch of the memory overload: the texture constructed first
is given the id of the loader, the caller's dimensions and the fixed name. -/
theorem loaded_resources (env : Env) (s : RenderSystem) (e : Effect) (k : Nat) (w h : Int)
    (name : String) (filter : Bool) :
    (RenderSystem.setName (RenderSystem.newTexture env s).1 name
      (RenderSystem.setHeight (RenderSystem.newTexture env s).1 h
        (RenderSystem.setWidth (RenderSystem.newTexture env s).1 w
          (RenderSystem.setTextureId (RenderSystem.newTexture env s).1 k
            (RenderSystem.setFilter filter
              ((((RenderSystem.newTexture env s).2.emit e).emit
                (Effect.gl (GLCall.glBindTexture k))))))))).resources
      = s.resources ++ [{ type := E_RESOURCE_TYPE.ERT_TEXTURE, name := name,
                          textureId := k, width := w, height := h }] := by
  simp [RenderSystem.setName, RenderSystem.setHeight, RenderSystem.setWidth,
    RenderSystem.setTextureId, RenderSystem.setFilter, RenderSystem.newTexture,
    RenderSystem.emit, modifyAt_length_append]

/-- C10: a successful load from memory takes its dimensions from the caller.
When the image loader returns a non-zero id `k`, the call returns a non-empty
pointer (to the object constructed for the call) whose texture id is `k`, whose
width and height are the arguments `_w` and `_h`, and whose name is
"Loaded From Memory"; the returned pointer and the resource list are the same
for both filter settings. -/
theorem RenderSystem.loadTextureFromMemory_loaded (env : Env) (s : RenderSystem)
    (_d : List Nat) (_len _w _h : Nat) (filter : Bool)
    (hk : env.SOIL_load_OGL_texture_from_memory _d _len ≠ 0) :
    (RenderSystem.loadTextureFromMemory env _d _len _w _h filter s).1
      = some s.resources.length ∧
    (RenderSystem.loadTextureFromMemory env _d _len _w _h filter s).2.resources[
        s.resources.length]?
      = some { type := E_RESOURCE_TYPE.ERT_TEXTURE, name := "Loaded From Memory",
               textureId := env.SOIL_load_OGL_texture_from_memory _d _len,
               width := (_w : Int), height := (_h : Int) } ∧
    (RenderSystem.loadTextureFromMemory env _d _len _w _h true s).1
      = (RenderSystem.loadTextureFromMemory env _d _len _w _h false s).1 ∧
    (RenderSystem.loadTextureFromMemory env _d _len _w _h true s).2.resources
      = (RenderSystem.loadTextureFromMemory env _d _len _w _h false s).2.resources := by
  have hres : ∀ b : Bool,
      (RenderSystem.loadTextureFromMemory env _d _len _w _h b s).2.resources
        = s.resources ++ [{ type := E_RESOURCE_TYPE.ERT_TEXTURE, name := "Loaded From Memory",
                            textureId := env.SOIL_load_OGL_texture_from_memory _d _len,
                            width := (_w : Int), height := (_h : Int) }] := by
    intro b
    have hl := loaded_resources env s (Effect.soilLoadFromMemory _d _len)
      (env.SOIL_load_OGL_texture_from_memory _d _len) _w _h "Loaded From Memory"
    cases b
    · simpa [RenderSystem.loadTextureFromMemory, hk] using hl false
    · simpa [RenderSystem.loadTextureFromMemory, hk] using hl true
  have hptr : ∀ b : Bool,
      (RenderSystem.loadTextureFromMemory env _d _len _w _h b s).1
        = some s.resources.length := by
    intro b
    simp [RenderSystem.loadTextureFromMemory, hk, RenderSystem.newTexture]
  refine ⟨hptr filter, ?_, ?_, ?_⟩
  · rw [hres filter]; simp
  · rw [hptr true, hptr false]
  · rw [hres true, hres false]

/-- Witness for C10: in `Env.sample` the buffer `[1, 2, 3]` decodes with id 7,
and the texture comes back 16 wide and 32 high. -/
theorem RenderSystem.loadTextureFromMemory_loaded_witness :
    Env.sample.SOIL_load_OGL_texture_from_memory [1, 2, 3] 3 ≠ 0 ∧
    (RenderSystem.loadTextureFromMemory Env.sample [1, 2, 3] 3 16 32 false
        RenderSystem.sample).1 = some 0 ∧
    (RenderSystem.loadTextureFromMemory Env.sample [1, 2, 3] 3 16 32 false
        RenderSystem.sample).2.resources[0]?
      = some { type := E_RESOURCE_TYPE.ERT_TEXTURE, name := "Loaded From Memory",
               textureId := 7, width := 16, height := 32 } :=
  ⟨by decide,
    (RenderSystem.loadTextureFromMemory_loaded Env.sample RenderSystem.sample [1, 2, 3] 3 16 32
      false (by decide)).1,
    (RenderSystem.loadTextureFromMemory_loaded Env.sample RenderSystem.sample [1, 2, 3] 3 16 32
      false (by decide)).2.1⟩


/-! ## Theorems: `RenderSystem::Initialize` -/

/-- C3: `Initialize` fails if the render system is already initialized. When
the static instance is set, the call throws `BadInstance` and the process state
is exactly what it was (the instance and its log of calls are unchanged, no
`RenderSystem` has been constructed). When no instance is set and the window
opens, the call stores a new instance, returns that same instance, and any
second call then throws `BadInstance`. -/
theorem RenderSystem.Initialize_once (env : Env) (_sz : Vector2d) (_fs : Bool) (w : World) :
    (w.instance_.isSome = true →
      RenderSystem.Initialize env _sz _fs w = (w, Except.error Exception.BadInstance)) ∧
    (w.instance_ = none → env.wmOpen _sz _fs = true →
      ∃ r : RenderSystem,
        RenderSystem.Initialize env _sz _fs w
          = ({ instance_ := some r, constructed := w.constructed + 1 }, Except.ok r) ∧
        ∀ (sz' : Vector2d) (fs' : Bool),
          RenderSystem.Initialize env sz' fs'
              { instance_ := some r, constructed := w.constructed + 1 }
            = ({ instance_ := some r, constructed := w.constructed + 1 },
                Except.error Exception.BadInstance)) := by
  constructor
  · intro h
    simp [RenderSystem.Initialize, h]
  · intro hnone hopen
    simp only [RenderSystem.Initialize, hnone, hopen, Option.isSome_none, Bool.false_eq_true,
      if_false, not_true_eq_false]
    exact ⟨_, rfl, fun sz' fs' => by simp⟩

/-- Witness for C3: in `Env.sample` the window opens; initialising an empty
process twice fails the second time, and initialising a process that holds an
instance fails at once. -/
theorem RenderSystem.Initialize_once_witness :
    ((some RenderSystem.sample).isSome = true ∧
      RenderSystem.Initialize Env.sample { x := 640, y := 480 } false
          { instance_ := some RenderSystem.sample, constructed := 1 }
        = ({ instance_ := some RenderSystem.sample, constructed := 1 },
            Except.error Exception.BadInstance)) ∧
    ((none : Option RenderSystem) = none ∧
      Env.sample.wmOpen { x := 640, y := 480 } false = true ∧
      ∃ r : RenderSystem,
        RenderSystem.Initialize Env.sample { x := 640, y := 480 } false
            { instance_ := none, constructed := 0 }
          = ({ instance_ := some r, constructed := 0 + 1 }, Except.ok r) ∧
        ∀ (sz' : Vector2d) (fs' : Bool),
          RenderSystem.Initialize Env.sample sz' fs'
              { instance_ := some r, constructed := 0 + 1 }
            = ({ instance_ := some r, constructed := 0 + 1 },
                Except.error Exception.BadInstance)) :=
  ⟨⟨rfl, (RenderSystem.Initialize_once Env.sample { x := 640, y := 480 } false
      { instance_ := some RenderSystem.sample, constructed := 1 }).1 rfl⟩,
    rfl, rfl,
    (RenderSystem.Initialize_once Env.sample { x := 640, y := 480 } false
      { instance_ := none, constructed := 0 }).2 rfl rfl⟩

/-! ## Theorems: `RenderSystem::onWindowEvent` and `RenderSystem::run` -/

/-- C4: shutdown is requested exactly by a close event or an Escape key press,
and is never withdrawn. After `onWindowEvent(e)` the quit flag is true if and
only if it was true before, or `e` is `WET_CLOSE`, or `e` is `WET_KEY` with
`bool_data == true` and `int_data == PHK_ESC`. -/
theorem RenderSystem.onWindowEvent_quit (env : Env) (e : WindowEvent) (s : RenderSystem) :
    (RenderSystem.onWindowEvent env e s).quit = true ↔
      (s.quit = true ∨ e.type = E_WINDOWEVENT_TYPE.WET_CLOSE ∨
        (e.type = E_WINDOWEVENT_TYPE.WET_KEY ∧ e.bool_data = true ∧ e.int_data = env.PHK_ESC)) := by
  unfold RenderSystem.onWindowEvent
  cases h : e.type with
  | WET_CLOSE => simp
  | WET_KEY =>
    by_cases hk : e.bool_data = true ∧ e.int_data = env.PHK_ESC
    · simp [hk]
    · simp [hk]
  | WET_RESIZE =>
    by_cases hr : s.resize = true <;> simp [hr, RenderSystem.emit]
  | WET_OTHER t => simp


/-- The event handler leaves the resource list alone. -/
theorem onWindowEvent_resources (env : Env) (e : WindowEvent) (s : RenderSystem) :
    (RenderSystem.onWindowEvent env e s).resources = s.resources := by
  unfold RenderSystem.onWindowEvent
  cases h : e.type with
  | WET_CLOSE => rfl
  | WET_KEY => by_cases hk : e.bool_data = true ∧ e.int_data = env.PHK_ESC <;> simp [hk]
  | WET_RESIZE => by_cases hr : s.resize = true <;> simp [hr, RenderSystem.emit]
  | WET_OTHER t => rfl

/-- The event handler only appends to the log, and none of the calls it makes
is a frame step. -/
theorem onWindowEvent_log (env : Env) (e : WindowEvent) (s : RenderSystem) :
    ∃ m : List Effect, (RenderSystem.onWindowEvent env e s).log = s.log ++ m ∧
      ∀ x ∈ m, x.isFrameStep = false := by
  unfold RenderSystem.onWindowEvent
  cases h : e.type with
  | WET_CLOSE => exact ⟨[], by simp, by simp⟩
  | WET_KEY =>
    by_cases hk : e.bool_data = true ∧ e.int_data = env.PHK_ESC
    · exact ⟨[], by simp [hk], by simp⟩
    · exact ⟨[], by simp [hk], by simp⟩
  | WET_RESIZE =>
    by_cases hr : s.resize = true
    · exact ⟨[Effect.viewSetSize e.vector_data, Effect.gl GLCall.glMatrixMode_PROJECTION,
        Effect.gl GLCall.glLoadIdentity,
        Effect.gl (GLCall.glOrtho e.vector_data.x e.vector_data.y)],
        by simp [hr, RenderSystem.emit], by simp [Effect.isFrameStep]⟩
    · exact ⟨[Effect.wmSetWindowSize s.viewSize], by simp [hr, RenderSystem.emit],
        by simp [Effect.isFrameStep]⟩
  | WET_OTHER t => exact ⟨[], by simp, by simp⟩

/-- The quit flag after one event: set before, or set by a close event or an
Escape key press. -/
theorem onWindowEvent_quit_iff (env : Env) (e : WindowEvent) (s : RenderSystem) :
    (RenderSystem.onWindowEvent env e s).quit = true ↔
      (s.quit = true ∨ e.type = E_WINDOWEVENT_TYPE.WET_CLOSE ∨
        (e.type = E_WINDOWEVENT_TYPE.WET_KEY ∧ e.bool_data = true ∧ e.int_data = env.PHK_ESC)) := by
  unfold RenderSystem.onWindowEvent
  cases h : e.type with
  | WET_CLOSE => simp
  | WET_KEY => by_cases hk : e.bool_data = true ∧ e.int_data = env.PHK_ESC <;> simp [hk]
  | WET_RESIZE => by_cases hr : s.resize = true <;> simp [hr, RenderSystem.emit]
  | WET_OTHER t => simp

/-- Delivering a list of events: the quit flag afterwards. -/
theorem deliver_quit (env : Env) (events : List WindowEvent) (s : RenderSystem) :
    (events.foldl (fun st e => RenderSystem.onWindowEvent env e st) s).quit = true ↔
      (s.quit = true ∨ ∃ e ∈ events, e.type = E_WINDOWEVENT_TYPE.WET_CLOSE ∨
        (e.type = E_WINDOWEVENT_TYPE.WET_KEY ∧ e.bool_data = true ∧
          e.int_data = env.PHK_ESC)) := by
  induction events generalizing s with
  | nil => simp
  | cons e es ih =>
    rw [List.foldl_cons, ih, onWindowEvent_quit_iff]
    simp only [List.mem_cons, exists_eq_or_imp, or_assoc]

/-- Delivering a list of events leaves the resource list alone. -/
theorem deliver_resources (env : Env) (events : List WindowEvent) (s : RenderSystem) :
    (events.foldl (fun st e => RenderSystem.onWindowEvent env e st) s).resources
      = s.resources := by
  induction events generalizing s with
  | nil => rfl
  | cons e es ih => rw [List.foldl_cons, ih, onWindowEvent_resources]

/-- Delivering a list of events only appends calls that are not frame steps. -/
theorem deliver_log (env : Env) (events : List WindowEvent) (s : RenderSystem) :
    ∃ m : List Effect,
      (events.foldl (fun st e => RenderSystem.onWindowEvent env e st) s).log = s.log ++ m ∧
      ∀ x ∈ m, x.isFrameStep = false := by
  induction events generalizing s with
  | nil => exact ⟨[], by simp, by simp⟩
  | cons e es ih =>
    obtain ⟨m1, h1, hm1⟩ := onWindowEvent_log env e s
    obtain ⟨m2, h2, hm2⟩ := ih (RenderSystem.onWindowEvent env e s)
    refine ⟨m1 ++ m2, ?_, ?_⟩
    · rw [List.foldl_cons, h2, h1, List.append_assoc]
    · intro x hx
      rcases List.mem_append.mp hx with h | h
      · exact hm1 x h
      · exact hm2 x h

/-- The calls made by one invocation of `run`: the batch draw, the window
update, what the event handler does for the events of that update, then the
clean-up, the screen clear and the two timer calls. -/
theorem run_log (env : Env) (events : List WindowEvent) (s : RenderSystem) :
    ∃ m : List Effect, (∀ x ∈ m, x.isFrameStep = false) ∧
      RenderSystem.runLog env events s
        = [Effect.rendererDraw, Effect.wmUpdate] ++ m ++
          [Effect.resourcesClean, Effect.clearScreen none, Effect.fpstimerGetTime,
            Effect.fpstimerReset] := by
  obtain ⟨m, hm, hfs⟩ := deliver_log env events
    ((s.emit Effect.rendererDraw).emit Effect.wmUpdate)
  refine ⟨m, hfs, ?_⟩
  simp only [RenderSystem.runLog, RenderSystem.run, RenderSystem.wmUpdate]
  simp only [RenderSystem.emit] at hm ⊢
  rw [hm]
  simp


/-- C5: `run` returns false exactly when shutdown has been requested. The
returned value is the negation of the quit flag at the end of the frame; it is
false if and only if the quit flag was set before the call or one of the events
delivered during this call's window update is a close event or an Escape key
press; and whatever is returned, the call has performed the batch draw, the
window update, the resource clean-up and the screen clear. -/
theorem RenderSystem.run_false_iff_quit (env : Env) (events : List WindowEvent)
    (s : RenderSystem) :
    (RenderSystem.run env events s).1 = !(RenderSystem.run env events s).2.quit ∧
    ((RenderSystem.run env events s).1 = false ↔
      (s.quit = true ∨ ∃ e ∈ events, e.type = E_WINDOWEVENT_TYPE.WET_CLOSE ∨
        (e.type = E_WINDOWEVENT_TYPE.WET_KEY ∧ e.bool_data = true ∧
          e.int_data = env.PHK_ESC))) ∧
    (Effect.rendererDraw ∈ RenderSystem.runLog env events s ∧
      Effect.wmUpdate ∈ RenderSystem.runLog env events s ∧
      Effect.resourcesClean ∈ RenderSystem.runLog env events s ∧
      Effect.clearScreen none ∈ RenderSystem.runLog env events s) := by
  refine ⟨rfl, ?_, ?_⟩
  · have h := deliver_quit env events ((s.emit Effect.rendererDraw).emit Effect.wmUpdate)
    simp only [RenderSystem.emit] at h
    simp only [RenderSystem.run, RenderSystem.wmUpdate, RenderSystem.emit, Bool.not_eq_false']
    exact h
  · obtain ⟨m, -, hm⟩ := run_log env events s
    rw [hm]
    simp

/-- C6, as the code has it: the frame steps made by one call to `run` are, in
this order, the batch draw, the window update (which flips the screen and polls
the events), the resource clean-up and the screen clear; every other call made
in between is made by the event handler or the frame timer. -/
theorem RenderSystem.run_frame_steps (env : Env) (events : List WindowEvent)
    (s : RenderSystem) :
    (RenderSystem.runLog env events s).filter Effect.isFrameStep
      = [Effect.rendererDraw, Effect.wmUpdate, Effect.resourcesClean,
          Effect.clearScreen none] := by
  obtain ⟨m, hfs, hm⟩ := run_log env events s
  have hnone : m.filter Effect.isFrameStep = [] := by
    rw [List.filter_eq_nil_iff]
    intro x hx
    simp [hfs x hx]
  rw [hm]
  simp [List.filter_append, hnone, List.filter_cons, Effect.isFrameStep]

/-- C6, as the claim has it, fails: in a frame without events `run` makes
exactly six calls, the batch draw first; the claimed sequence (poll, clean,
clear, redraw, swap) does not occur in them in that order, and neither the
clean-up nor the clear comes before the draw. -/
theorem RenderSystem.run_claimed_order_fails :
    RenderSystem.runLog Env.sample [] RenderSystem.sample
      = [Effect.rendererDraw, Effect.wmUpdate, Effect.resourcesClean,
          Effect.clearScreen none, Effect.fpstimerGetTime, Effect.fpstimerReset] ∧
    ¬ List.Sublist [Effect.wmUpdate, Effect.resourcesClean, Effect.clearScreen none,
        Effect.rendererDraw, Effect.wmUpdate]
      (RenderSystem.runLog Env.sample [] RenderSystem.sample) ∧
    ¬ List.Sublist [Effect.resourcesClean, Effect.rendererDraw]
      (RenderSystem.runLog Env.sample [] RenderSystem.sample) ∧
    ¬ List.Sublist [Effect.clearScreen none, Effect.rendererDraw]
      (RenderSystem.runLog Env.sample [] RenderSystem.sample) := by
  decide

/-- C7: resource clean-up happens once per frame at a single fixed point. One
call to `run` calls `resources.clean()` exactly once; the batch draw and the
window update come before it and not after it, the screen clear comes after it;
and the resource list after the call is the list before it, cleaned once. -/
theorem RenderSystem.run_cleans_once (env : Env) (events : List WindowEvent)
    (s : RenderSystem) :
    (RenderSystem.runLog env events s).count Effect.resourcesClean = 1 ∧
    (∃ before after : List Effect,
      RenderSystem.runLog env events s = before ++ [Effect.resourcesClean] ++ after ∧
      Effect.rendererDraw ∈ before ∧ Effect.wmUpdate ∈ before ∧
      Effect.resourcesClean ∉ before ∧ Effect.clearScreen none ∉ before ∧
      Effect.clearScreen none ∈ after ∧ Effect.resourcesClean ∉ after ∧
      Effect.rendererDraw ∉ after ∧ Effect.wmUpdate ∉ after) ∧
    (RenderSystem.run env events s).2.resources = env.clean s.resources := by
  obtain ⟨m, hfs, hm⟩ := run_log env events s
  have hclean : Effect.resourcesClean ∉ m := fun h => by
    have := hfs _ h
    simp [Effect.isFrameStep] at this
  have hclear : Effect.clearScreen none ∉ m := fun h => by
    have := hfs _ h
    simp [Effect.isFrameStep] at this
  refine ⟨?_, ⟨[Effect.rendererDraw, Effect.wmUpdate] ++ m,
    [Effect.clearScreen none, Effect.fpstimerGetTime, Effect.fpstimerReset], ?_, ?_⟩, ?_⟩
  · rw [hm]
    simp [List.count_append, List.count_cons, List.count_eq_zero_of_not_mem hclean]
  · rw [hm]; simp
  · simp [hclean, hclear]
  · have h := deliver_resources env events ((s.emit Effect.rendererDraw).emit Effect.wmUpdate)
    simp only [RenderSystem.emit] at h
    simp only [RenderSystem.run, RenderSystem.wmUpdate, RenderSystem.emit]
    rw [h]


/-! ## Theorems: `RenderSystem::findTexture` -/

/-- The loop of `findTexture( GLuint )` from counter value `i` on returns
position `k` exactly when `k` is the first position from `i` on that holds a
resource of type `ERT_TEXTURE` with texture id `n`. -/
theorem findTextureLoop_eq_some (rs : List Resource) (n : Nat) :
    ∀ (todo i : Nat), todo + i = rs.length → ∀ k : Nat,
      (RenderSystem.findTextureLoop rs n todo i = some k ↔
        (i ≤ k ∧
          (∃ r, rs[k]? = some r ∧ r.type = E_RESOURCE_TYPE.ERT_TEXTURE ∧ r.textureId = n) ∧
          ∀ j, i ≤ j → j < k → ∀ r, rs[j]? = some r →
            ¬ (r.type = E_RESOURCE_TYPE.ERT_TEXTURE ∧ r.textureId = n))) := by
  intro todo
  induction todo with
  | zero =>
    intro i hi k
    simp only [RenderSystem.findTextureLoop]
    constructor
    · intro h; cases h
    · rintro ⟨hik, ⟨r, hr, -⟩, -⟩
      have hk : k < rs.length := by
        by_contra hc
        rw [List.getElem?_eq_none (by omega)] at hr
        cases hr
      omega
  | succ todo ih =>
    intro i hi k
    have hlt : i < rs.length := by omega
    have hget : rs[i]? = some rs[i] := List.getElem?_eq_getElem hlt
    rw [RenderSystem.findTextureLoop, hget]
    simp only
    by_cases hgood : rs[i].type = E_RESOURCE_TYPE.ERT_TEXTURE ∧ rs[i].textureId = n
    · rw [if_pos hgood.1, if_pos hgood.2]
      constructor
      · intro h
        cases h
        exact ⟨le_refl _, ⟨rs[i], hget, hgood⟩, fun j h1 h2 => by omega⟩
      · rintro ⟨hik, -, hmin⟩
        by_cases hki : k = i
        · rw [hki]
        · exact absurd hgood (hmin i (le_refl _) (by omega) rs[i] hget)
    · have hstep : (if rs[i].type = E_RESOURCE_TYPE.ERT_TEXTURE then
            if rs[i].textureId = n then some i
            else RenderSystem.findTextureLoop rs n todo (i + 1)
          else RenderSystem.findTextureLoop rs n todo (i + 1))
          = RenderSystem.findTextureLoop rs n todo (i + 1) := by
        by_cases ht : rs[i].type = E_RESOURCE_TYPE.ERT_TEXTURE
        · have hid : ¬ rs[i].textureId = n := fun h => hgood ⟨ht, h⟩
          rw [if_pos ht, if_neg hid]
        · rw [if_neg ht]
      rw [hstep, ih (i + 1) (by omega) k]
      constructor
      · rintro ⟨hik, hk, hmin⟩
        refine ⟨by omega, hk, fun j h1 h2 r hr => ?_⟩
        by_cases hji : j = i
        · subst hji
          rw [hget] at hr
          cases hr
          exact hgood
        · exact hmin j (by omega) h2 r hr
      · rintro ⟨hik, hk, hmin⟩
        have hne : k ≠ i := by
          rintro rfl
          obtain ⟨r, hr, hr'⟩ := hk
          rw [hget] at hr
          cases hr
          exact hgood hr'
        exact ⟨by omega, hk, fun j h1 h2 => hmin j (by omega) h2⟩

/-- The loop of `findTexture( GLuint )` returns the empty pointer exactly when
no position from `i` on holds a resource of type `ERT_TEXTURE` with texture id
`n`. -/
theorem findTextureLoop_eq_none (rs : List Resource) (n : Nat) :
    ∀ (todo i : Nat), todo + i = rs.length →
      (RenderSystem.findTextureLoop rs n todo i = none ↔
        ∀ j, i ≤ j → ∀ r, rs[j]? = some r →
          ¬ (r.type = E_RESOURCE_TYPE.ERT_TEXTURE ∧ r.textureId = n)) := by
  intro todo
  induction todo with
  | zero =>
    intro i hi
    simp only [RenderSystem.findTextureLoop, true_iff]
    intro j hj r hr
    rw [List.getElem?_eq_none (by omega)] at hr
    cases hr
  | succ todo ih =>
    intro i hi
    have hlt : i < rs.length := by omega
    have hget : rs[i]? = some rs[i] := List.getElem?_eq_getElem hlt
    rw [RenderSystem.findTextureLoop, hget]
    simp only
    by_cases hgood : rs[i].type = E_RESOURCE_TYPE.ERT_TEXTURE ∧ rs[i].textureId = n
    · rw [if_pos hgood.1, if_pos hgood.2]
      constructor
      · intro h; cases h
      · intro h
        exact absurd hgood (h i (le_refl _) rs[i] hget)
    · have hstep : (if rs[i].type = E_RESOURCE_TYPE.ERT_TEXTURE then
            if rs[i].textureId = n then some i
            else RenderSystem.findTextureLoop rs n todo (i + 1)
          else RenderSystem.findTextureLoop rs n todo (i + 1))
          = RenderSystem.findTextureLoop rs n todo (i + 1) := by
        by_cases ht : rs[i].type = E_RESOURCE_TYPE.ERT_TEXTURE
        · have hid : ¬ rs[i].textureId = n := fun h => hgood ⟨ht, h⟩
          rw [if_pos ht, if_neg hid]
        · rw [if_neg ht]
      rw [hstep, ih (i + 1) (by omega)]
      constructor
      · intro h j hj r hr
        by_cases hji : j = i
        · subst hji
          rw [hget] at hr
          cases hr
          exact hgood
        · exact h j (by omega) r hr
      · intro h j hj
        exact h j (by omega)

/-- The loop of `findTexture( GLuint )` does not depend on the texture id
stored in a resource of another type. -/
theorem findTextureLoop_map (rs : List Resource) (n : Nat) (other : Resource → Nat) :
    ∀ (todo i : Nat),
      RenderSystem.findTextureLoop
        (rs.map fun r => if r.type = E_RESOURCE_TYPE.ERT_TEXTURE then r
          else { r with textureId := other r }) n todo i
      = RenderSystem.findTextureLoop rs n todo i := by
  intro todo
  induction todo with
  | zero => intro i; rfl
  | succ todo ih =>
    intro i
    rw [RenderSystem.findTextureLoop, RenderSystem.findTextureLoop, List.getElem?_map]
    cases hget : rs[i]? with
    | none => rfl
    | some r =>
      simp only [Option.map_some']
      by_cases ht : r.type = E_RESOURCE_TYPE.ERT_TEXTURE
      · simp only [ht, if_true, ih]
      · simp only [ht, if_false, ih]


/-- C8: `findTexture( GLuint n )` is a first-match linear scan over texture
resources only. It returns position `k` exactly when `k` is the smallest
position of the resource list that holds a resource of type `ERT_TEXTURE` whose
texture id is `n`; it returns the empty pointer exactly when no resource of type
`ERT_TEXTURE` has texture id `n`; and the result is the same whatever texture id
is stored in the resources of another type, which are therefore never returned
for their id. -/
theorem RenderSystem.findTextureGLuint_first_match (s : RenderSystem) (n : Nat) :
    (∀ k : Nat, RenderSystem.findTextureGLuint n s = some k ↔
      ((∃ r, s.resources[k]? = some r ∧ r.type = E_RESOURCE_TYPE.ERT_TEXTURE ∧
          r.textureId = n) ∧
        ∀ j, j < k → ∀ r, s.resources[j]? = some r →
          ¬ (r.type = E_RESOURCE_TYPE.ERT_TEXTURE ∧ r.textureId = n))) ∧
    (RenderSystem.findTextureGLuint n s = none ↔
      ∀ r ∈ s.resources, ¬ (r.type = E_RESOURCE_TYPE.ERT_TEXTURE ∧ r.textureId = n)) ∧
    (∀ other : Resource → Nat,
      RenderSystem.findTextureGLuint n
          { s with resources := s.resources.map fun r =>
              if r.type = E_RESOURCE_TYPE.ERT_TEXTURE then r
              else { r with textureId := other r } }
        = RenderSystem.findTextureGLuint n s) := by
  refine ⟨fun k => ?_, ?_, fun other => ?_⟩
  · rw [RenderSystem.findTextureGLuint,
      findTextureLoop_eq_some s.resources n s.resources.length 0 rfl k]
    constructor
    · rintro ⟨-, hk, hmin⟩
      exact ⟨hk, fun j hj => hmin j (Nat.zero_le _) hj⟩
    · rintro ⟨hk, hmin⟩
      exact ⟨Nat.zero_le _, hk, fun j _ hj => hmin j hj⟩
  · rw [RenderSystem.findTextureGLuint,
      findTextureLoop_eq_none s.resources n s.resources.length 0 rfl]
    constructor
    · intro h r hr
      obtain ⟨j, hj⟩ := List.mem_iff_getElem?.mp hr
      exact h j (Nat.zero_le _) r hj
    · intro h j _ r hr
      exact h r (List.mem_iff_getElem?.mpr ⟨j, hr⟩)
  · simp only [RenderSystem.findTextureGLuint, List.length_map]
    exact findTextureLoop_map s.resources n other s.resources.length 0

/-- The name lookup finds a resource of the name of any resource in the list. -/
theorem findFrom_of_mem (name : String) :
    ∀ (rs : List Resource) (i : Nat), (∃ t ∈ rs, t.name = name) →
      ∃ k r, RenderSystem.findFrom name rs i = some (i + k) ∧ rs[k]? = some r ∧
        r.name = name := by
  intro rs
  induction rs with
  | nil => intro i h; simp at h
  | cons a rs ih =>
    intro i h
    by_cases ha : a.name = name
    · exact ⟨0, a, by simp [RenderSystem.findFrom, ha], by simp, ha⟩
    · have h' : ∃ t ∈ rs, t.name = name := by
        obtain ⟨t, ht, hn⟩ := h
        rcases List.mem_cons.mp ht with rfl | ht
        · exact absurd hn ha
        · exact ⟨t, ht, hn⟩
      obtain ⟨k, r, hk, hr, hn⟩ := ih (i + 1) h'
      refine ⟨k + 1, r, ?_, by simpa using hr, hn⟩
      rw [RenderSystem.findFrom, if_neg ha, hk]
      congr 1
      omega

/-- What the lookup by name does guarantee. For every texture `t` in the
resource list, `findTexture( t.getName() )` returns a non-empty pointer, and the
object it points to has the name of `t`; that object is of type `ERT_TEXTURE`
when every resource of that name is, and not in general. For every name,
`findTexture( name )` is the empty pointer exactly when `resources.find( name )`
is, and otherwise points to the very resource that `find` returned. -/
theorem RenderSystem.findTexture_by_name (s : RenderSystem) :
    (∀ t ∈ s.resources, t.type = E_RESOURCE_TYPE.ERT_TEXTURE →
      ∃ p r, RenderSystem.findTexture t.name s = some p ∧ s.resources[p]? = some r ∧
        r.name = t.name ∧
        ((∀ u ∈ s.resources, u.name = t.name → u.type = E_RESOURCE_TYPE.ERT_TEXTURE) →
          r.type = E_RESOURCE_TYPE.ERT_TEXTURE)) ∧
    (∀ name : String,
      (RenderSystem.findTexture name s = none ↔ RenderSystem.find name s = none) ∧
      ∀ p, RenderSystem.find name s = some p → RenderSystem.findTexture name s = some p) := by
  have heq : ∀ name, RenderSystem.findTexture name s = RenderSystem.find name s := by
    intro name
    unfold RenderSystem.findTexture
    cases RenderSystem.find name s <;> rfl
  refine ⟨fun t ht _ => ?_, fun name => ⟨by rw [heq], fun p hp => by rw [heq, hp]⟩⟩
  obtain ⟨k, r, hk, hr, hn⟩ := findFrom_of_mem t.name s.resources 0 ⟨t, ht, rfl⟩
  refine ⟨k, r, ?_, hr, hn, fun hall => hall r (List.mem_iff_getElem?.mpr ⟨k, hr⟩) hn⟩
  rw [heq, RenderSystem.find, hk, Nat.zero_add]

/-- C11: resize handling depends on the resize setting and never touches the
quit flag. For a `WET_RESIZE` event with size `v`: when resizing is enabled the
view size becomes `v`, the projection is rebuilt for `v` (`glMatrixMode`,
`glLoadIdentity`, `glOrtho` with `v`), and the handler makes no other call, in
particular no `setWindowSize`; when resizing is disabled the view size is
unchanged and the only call is `wm->setWindowSize` with the current view size.
In both cases the quit flag, the resize setting and the resources are
unchanged. -/
theorem RenderSystem.onWindowEvent_resize (env : Env) (e : WindowEvent) (s : RenderSystem)
    (he : e.type = E_WINDOWEVENT_TYPE.WET_RESIZE) :
    (s.resize = true →
      (RenderSystem.onWindowEvent env e s).viewSize = e.vector_data ∧
      (RenderSystem.onWindowEvent env e s).log = s.log ++
        [Effect.viewSetSize e.vector_data, Effect.gl GLCall.glMatrixMode_PROJECTION,
          Effect.gl GLCall.glLoadIdentity,
          Effect.gl (GLCall.glOrtho e.vector_data.x e.vector_data.y)] ∧
      ∀ u, Effect.wmSetWindowSize u ∉
        (RenderSystem.onWindowEvent env e s).log.drop s.log.length) ∧
    (s.resize = false →
      (RenderSystem.onWindowEvent env e s).viewSize = s.viewSize ∧
      (RenderSystem.onWindowEvent env e s).log
        = s.log ++ [Effect.wmSetWindowSize s.viewSize]) ∧
    (RenderSystem.onWindowEvent env e s).quit = s.quit ∧
    (RenderSystem.onWindowEvent env e s).resize = s.resize ∧
    (RenderSystem.onWindowEvent env e s).resources = s.resources := by
  unfold RenderSystem.onWindowEvent
  rw [he]
  cases hr : s.resize <;> simp [RenderSystem.emit, hr]

/-- Witness for C11: a resize to 800 x 600 is taken over by
`RenderSystem.sample`, where resizing is enabled, and undone by
`RenderSystem.sampleFixed`, where it is disabled and the view is 640 x 480. -/
theorem RenderSystem.onWindowEvent_resize_witness :
    ((RenderSystem.onWindowEvent Env.sample
        { type := E_WINDOWEVENT_TYPE.WET_RESIZE, bool_data := false, int_data := 0,
          vector_data := { x := 800, y := 600 } } RenderSystem.sample).viewSize
      = { x := 800, y := 600 }) ∧
    ((RenderSystem.onWindowEvent Env.sample
        { type := E_WINDOWEVENT_TYPE.WET_RESIZE, bool_data := false, int_data := 0,
          vector_data := { x := 800, y := 600 } } RenderSystem.sampleFixed).log
      = [Effect.wmSetWindowSize { x := 640, y := 480 }]) :=
  ⟨((RenderSystem.onWindowEvent_resize Env.sample
      { type := E_WINDOWEVENT_TYPE.WET_RESIZE, bool_data := false, int_data := 0,
        vector_data := { x := 800, y := 600 } } RenderSystem.sample rfl).1 rfl).1,
    ((RenderSystem.onWindowEvent_resize Env.sample
      { type := E_WINDOWEVENT_TYPE.WET_RESIZE, bool_data := false, int_data := 0,
        vector_data := { x := 800, y := 600 } } RenderSystem.sampleFixed rfl).2.1 rfl).2⟩


/-! ## Theorems: textures constructed by a load -/

/-- C12: number of `Texture` resources constructed per load. For both overloads
of `loadTexture`: a successful load (non-zero id from the image loader) makes
exactly one `new Texture( resources )`, adds that one resource to the resource
list and returns it; a failed load (id 0) makes exactly two, adds two resources
and returns the second, the "FAILED TO LOAD" placeholder, while the first stays
as its constructor left it. -/
theorem RenderSystem.loadTexture_constructions (env : Env) (s : RenderSystem) (_fn : String)
    (_d : List Nat) (_len _w _h : Nat) (filter : Bool) :
    ((env.SOIL_load_OGL_texture _fn).1 ≠ 0 →
      (RenderSystem.loadTexture env _fn filter s).1 = some s.resources.length ∧
      (RenderSystem.loadTexture env _fn filter s).2.resources = s.resources ++
        [{ type := E_RESOURCE_TYPE.ERT_TEXTURE, name := _fn,
           textureId := (env.SOIL_load_OGL_texture _fn).1,
           width := (env.SOIL_load_OGL_texture _fn).2.1,
           height := (env.SOIL_load_OGL_texture _fn).2.2 }] ∧
      (RenderSystem.loadTexture env _fn filter s).2.log = s.log ++
        [Effect.newTexture s.resources.length, Effect.soilLoad _fn,
          Effect.gl (GLCall.glBindTexture (env.SOIL_load_OGL_texture _fn).1),
          Effect.gl (GLCall.glTexParameteri_MIN_FILTER filter),
          Effect.gl (GLCall.glTexParameteri_MAG_FILTER filter)]) ∧
    ((env.SOIL_load_OGL_texture _fn).1 = 0 →
      (RenderSystem.loadTexture env _fn filter s).1 = some (s.resources.length + 1) ∧
      (RenderSystem.loadTexture env _fn filter s).2.resources = s.resources ++
        [env.constructedTexture,
          { type := E_RESOURCE_TYPE.ERT_TEXTURE, name := "FAILED TO LOAD", textureId := 0,
            width := 0, height := 0 }] ∧
      (RenderSystem.loadTexture env _fn filter s).2.log = s.log ++
        [Effect.newTexture s.resources.length, Effect.soilLoad _fn,
          Effect.newTexture (s.resources.length + 1)]) ∧
    (env.SOIL_load_OGL_texture_from_memory _d _len ≠ 0 →
      (RenderSystem.loadTextureFromMemory env _d _len _w _h filter s).1
        = some s.resources.length ∧
      (RenderSystem.loadTextureFromMemory env _d _len _w _h filter s).2.resources
        = s.resources ++
          [{ type := E_RESOURCE_TYPE.ERT_TEXTURE, name := "Loaded From Memory",
             textureId := env.SOIL_load_OGL_texture_from_memory _d _len,
             width := (_w : Int), height := (_h : Int) }] ∧
      (RenderSystem.loadTextureFromMemory env _d _len _w _h filter s).2.log = s.log ++
        [Effect.newTexture s.resources.length, Effect.soilLoadFromMemory _d _len,
          Effect.gl (GLCall.glBindTexture (env.SOIL_load_OGL_texture_from_memory _d _len)),
          Effect.gl (GLCall.glTexParameteri_MIN_FILTER filter),
          Effect.gl (GLCall.glTexParameteri_MAG_FILTER filter)]) ∧
    (env.SOIL_load_OGL_texture_from_memory _d _len = 0 →
      (RenderSystem.loadTextureFromMemory env _d _len _w _h filter s).1
        = some (s.resources.length + 1) ∧
      (RenderSystem.loadTextureFromMemory env _d _len _w _h filter s).2.resources
        = s.resources ++
          [env.constructedTexture,
            { type := E_RESOURCE_TYPE.ERT_TEXTURE, name := "FAILED TO LOAD", textureId := 0,
              width := 0, height := 0 }] ∧
      (RenderSystem.loadTextureFromMemory env _d _len _w _h filter s).2.log = s.log ++
        [Effect.newTexture s.resources.length, Effect.soilLoadFromMemory _d _len,
          Effect.newTexture (s.resources.length + 1)]) := by
  refine ⟨fun h => ?_, fun h => ?_, fun h => ?_, fun h => ?_⟩
  · have hl := loaded_resources env s (Effect.soilLoad _fn) (env.SOIL_load_OGL_texture _fn).1
      (env.SOIL_load_OGL_texture _fn).2.1 (env.SOIL_load_OGL_texture _fn).2.2 _fn
    refine ⟨?_, ?_, ?_⟩
    · simp [RenderSystem.loadTexture, h, RenderSystem.newTexture]
    · cases filter
      · simpa [RenderSystem.loadTexture, h] using hl false
      · simpa [RenderSystem.loadTexture, h] using hl true
    · cases filter <;>
        simp [RenderSystem.loadTexture, h, RenderSystem.newTexture, RenderSystem.emit,
          RenderSystem.setFilter, RenderSystem.setTextureId, RenderSystem.setWidth,
          RenderSystem.setHeight, RenderSystem.setName]
  · have hp := placeholder_resources env
      ((RenderSystem.newTexture env s).2.emit (Effect.soilLoad _fn))
    refine ⟨?_, ?_, ?_⟩
    · simp [RenderSystem.loadTexture, h, RenderSystem.newTexture, RenderSystem.emit]
    · simp only [RenderSystem.loadTexture, h, ne_eq, not_true_eq_false, if_false]
      rw [hp]
      simp [RenderSystem.newTexture, RenderSystem.emit, Env.constructedTexture]
    · simp [RenderSystem.loadTexture, h, RenderSystem.newTexture, RenderSystem.emit,
        RenderSystem.setTextureId, RenderSystem.setWidth, RenderSystem.setHeight,
        RenderSystem.setName]
  · have hl := loaded_resources env s (Effect.soilLoadFromMemory _d _len)
      (env.SOIL_load_OGL_texture_from_memory _d _len) _w _h "Loaded From Memory"
    refine ⟨?_, ?_, ?_⟩
    · simp [RenderSystem.loadTextureFromMemory, h, RenderSystem.newTexture]
    · cases filter
      · simpa [RenderSystem.loadTextureFromMemory, h] using hl false
      · simpa [RenderSystem.loadTextureFromMemory, h] using hl true
    · cases filter <;>
        simp [RenderSystem.loadTextureFromMemory, h, RenderSystem.newTexture,
          RenderSystem.emit, RenderSystem.setFilter, RenderSystem.setTextureId,
          RenderSystem.setWidth, RenderSystem.setHeight, RenderSystem.setName]
  · have hp := placeholder_resources env
      ((RenderSystem.newTexture env s).2.emit (Effect.soilLoadFromMemory _d _len))
    refine ⟨?_, ?_, ?_⟩
    · simp [RenderSystem.loadTextureFromMemory, h, RenderSystem.newTexture, RenderSystem.emit]
    · simp only [RenderSystem.loadTextureFromMemory, h, ne_eq, not_true_eq_false, if_false]
      rw [hp]
      simp [RenderSystem.newTexture, RenderSystem.emit, Env.constructedTexture]
    · simp [RenderSystem.loadTextureFromMemory, h, RenderSystem.newTexture,
        RenderSystem.emit, RenderSystem.setTextureId, RenderSystem.setWidth,
        RenderSystem.setHeight, RenderSystem.setName]


/-- Witness for C12: in `Env.sample` the file `deffont.png` and the buffer
`[1, 2, 3]` decode, and each load adds one resource to an empty resource list;
the file `missing.png` and the empty buffer fail, and each load adds two, the
texture as constructed and the placeholder. -/
theorem RenderSystem.loadTexture_constructions_witness :
    ((Env.sample.SOIL_load_OGL_texture "deffont.png").1 ≠ 0 ∧
      (RenderSystem.loadTexture Env.sample "deffont.png" true RenderSystem.sample).2.resources
        = [{ type := E_RESOURCE_TYPE.ERT_TEXTURE, name := "deffont.png", textureId := 1,
             width := 256, height := 256 }]) ∧
    ((Env.sample.SOIL_load_OGL_texture "missing.png").1 = 0 ∧
      (RenderSystem.loadTexture Env.sample "missing.png" true RenderSystem.sample).2.resources
        = [Env.sample.constructedTexture,
            { type := E_RESOURCE_TYPE.ERT_TEXTURE, name := "FAILED TO LOAD", textureId := 0,
              width := 0, height := 0 }]) ∧
    (Env.sample.SOIL_load_OGL_texture_from_memory [1, 2, 3] 3 ≠ 0 ∧
      (RenderSystem.loadTextureFromMemory Env.sample [1, 2, 3] 3 16 32 true
          RenderSystem.sample).2.resources
        = [{ type := E_RESOURCE_TYPE.ERT_TEXTURE, name := "Loaded From Memory",
             textureId := 7, width := 16, height := 32 }]) ∧
    (Env.sample.SOIL_load_OGL_texture_from_memory [] 0 = 0 ∧
      (RenderSystem.loadTextureFromMemory Env.sample [] 0 16 32 true
          RenderSystem.sample).2.resources
        = [Env.sample.constructedTexture,
            { type := E_RESOURCE_TYPE.ERT_TEXTURE, name := "FAILED TO LOAD", textureId := 0,
              width := 0, height := 0 }]) :=
  ⟨⟨by decide,
      ((RenderSystem.loadTexture_constructions Env.sample RenderSystem.sample "deffont.png"
        [1, 2, 3] 3 16 32 true).1 (by decide)).2.1⟩,
    ⟨by decide,
      ((RenderSystem.loadTexture_constructions Env.sample RenderSystem.sample "missing.png"
        [] 0 16 32 true).2.1 (by decide)).2.1⟩,
    ⟨by decide,
      ((RenderSystem.loadTexture_constructions Env.sample RenderSystem.sample "deffont.png"
        [1, 2, 3] 3 16 32 true).2.2.1 (by decide)).2.1⟩,
    ⟨by decide,
      ((RenderSystem.loadTexture_constructions Env.sample RenderSystem.sample "missing.png"
        [] 0 16 32 true).2.2.2 (by decide)).2.1⟩⟩

end phoenix
